import Mathlib

/-!
Shallow embedding of `src/docker/main.c` (the `ccrun` isolated-process
launcher).  Every system call the program makes is recorded as an `Action`
in an execution trace; the outcome of each fallible call is supplied by an
environment record (`SysEnv` for the child, `ParentEnv` for the parent), so
each C function becomes a Lean function from its environment to the pair
(trace of actions performed, final outcome).  `error_exit` prints a message
and calls `exit(1)`; it is embedded as an `Action.errExit msg` trace entry
followed by the outcome `exited 1` / `fatal`.
-/

namespace CCRun

/-- One observable step (system call / library call) of the program. -/
inductive Action where
  | closePipeWriteChild : Action
  | pipeRead (result : Int) : Action
  | closePipeReadChild : Action
  | mkdirDir (path : String) : Action
  | openFile (path : String) : Action
  | writeFile (path : String) (content : String) : Action
  | closeFile (path : String) : Action
  | setHostname (name : String) (len : Nat) : Action
  | chrootTo (path : String) : Action
  | chdirTo (path : String) : Action
  | mountProcFs : Action
  | execvpCall (prog : String) (argv : List String) : Action
  | errExit (msg : String) : Action
  | errMsg (msg : String) : Action
  | usageShown : Action
  | mallocStack (size : Nat) : Action
  | pipeCreate : Action
  | cloneCall : Action
  | closePipeWriteParent : Action
  | waitpidCall : Action
  | rmdirCall (path : String) : Action
  | logMsg (msg : String) : Action
  | freeStack : Action
deriving DecidableEq, Repr

/-- Result of running a piece of code that may call `exit`. -/
inductive PRes (α : Type) where
  | done (a : α) : PRes α
  | exited (code : Nat) : PRes α
deriving DecidableEq, Repr

/-- Final outcome of the child entry point: either the process exited with a
code (all failure paths), or `execvp` succeeded and replaced the image with
`prog` run under argument vector `argv`. -/
inductive ChildOutcome where
  | exited (code : Nat) : ChildOutcome
  | execed (prog : String) (argv : List String) : ChildOutcome
deriving DecidableEq, Repr

/-- Final outcome of `main` in the parent: a normal `return code`, a fatal
`error_exit` (diagnostic on stderr then `exit(1)`), or the usage message
(also `exit(1)`). -/
inductive MainOutcome where
  | ret (code : Nat) : MainOutcome
  | fatal : MainOutcome
  | usage : MainOutcome
deriving DecidableEq, Repr

/-- The process exit status produced by each `MainOutcome`:  `main`
returning `code` yields `code` truncated to 8 bits; `error_exit` and
`usage` both call `exit(1)`. -/
def exitStatusOf : MainOutcome → Nat
  | MainOutcome.ret code => code % 256
  | MainOutcome.fatal => 1
  | MainOutcome.usage => 1

/-- Environment of syscall outcomes seen by the child process. -/
structure SysEnv where
  /-- return value of `read(pipe_fd[0], &ch, 1)` (0 = end of channel). -/
  readResult : Int
  mkdirOk : Bool
  openCpuOk : Bool
  openMemOk : Bool
  openProcsOk : Bool
  hostnameOk : Bool
  chrootOk : Bool
  chdirOk : Bool
  mountOk : Bool
  execOk : Bool
  /-- result of `getpid()` inside the child. -/
  childPid : Nat
deriving DecidableEq, Repr

/-- How `rmdir` on the cgroup directory ends in the parent. -/
inductive RmdirResult where
  | ok : RmdirResult
  | enoent : RmdirResult
  | otherErr : RmdirResult
deriving DecidableEq, Repr

/-- Environment of syscall outcomes seen by the parent process. -/
structure ParentEnv where
  uid : Nat
  gid : Nat
  mallocOk : Bool
  pipeOk : Bool
  /-- `some pid` when `clone` succeeds returning `pid`; `none` on failure. -/
  clonePid : Option Nat
  openUidMapOk : Bool
  openGidMapOk : Bool
  waitOk : Bool
  /-- raw wait status word filled in by `waitpid`. -/
  waitStatus : Nat
  rmdirResult : RmdirResult
deriving DecidableEq, Repr

/-- `STACK_SIZE` (1 MiB). -/
def STACK_SIZE : Nat := 1024 * 1024

/-- The fixed cgroup path used by `write_limits` and
`remove_cgroup_directory`. -/
def cgroup_path : String := "/sys/fs/cgroup/container-ccrun"

/-- `WTERMSIG(s) = s & 0x7f` on the raw wait status word. -/
def WTERMSIG (s : Nat) : Nat := s % 128

/-- `WIFEXITED(s)`: true when the termination signal bits are zero. -/
def WIFEXITED (s : Nat) : Bool := WTERMSIG s == 0

/-- `WEXITSTATUS(s) = (s >> 8) & 0xff`. -/
def WEXITSTATUS (s : Nat) : Nat := (s / 256) % 256

/-- The wait status word the kernel reports for a child that exited
normally with code `k` (low 8 bits of `k`, shifted into the high byte). -/
def mkExitStatus (k : Nat) : Nat := (k % 256) * 256

/-- The wait status word for a child killed by signal `sig`
(no core dump bit). -/
def mkSignalStatus (sig : Nat) : Nat := sig % 128

/-- `update_map`: `fopen(map_path, "w")`, on failure
`error_exit("Failed to open map file for writing")`; otherwise
`fprintf` the map string and `fclose`, returning 0. -/
def update_map (openOk : Bool) (map map_path : String) :
    List Action × PRes Unit :=
  if openOk then
    ([Action.openFile map_path, Action.writeFile map_path map,
      Action.closeFile map_path], PRes.done ())
  else
    ([Action.openFile map_path,
      Action.errExit "Failed to open map file for writing"], PRes.exited 1)

/-- Path of the UID map file of process `pid`. -/
def uid_map_path (pid : Nat) : String := "/proc/" ++ toString pid ++ "/uid_map"

/-- Path of the GID map file of process `pid`. -/
def gid_map_path (pid : Nat) : String := "/proc/" ++ toString pid ++ "/gid_map"

/-- One id-mapping record `inside outside count` as written to a
`uid_map`/`gid_map` file. -/
structure MapRecord where
  inside : Nat
  outside : Nat
  count : Nat
deriving DecidableEq, Repr

/-- Rendering of a mapping record, as `snprintf(map_buf, _, "0 %d 1", id)`
produces it. -/
def renderMapRecord (r : MapRecord) : String :=
  toString r.inside ++ " " ++ toString r.outside ++ " " ++ toString r.count

/-- `write_uid_gid_mappings(pid)`: write `"0 <uid> 1"` to
`/proc/<pid>/uid_map`, then `"0 <gid> 1"` to `/proc/<pid>/gid_map`,
via `update_map`; each open failure is fatal (the `!= 0` checks after
`update_map` are dead code, since `update_map` either exits or returns 0). -/
def write_uid_gid_mappings (uOk gOk : Bool) (pid uid gid : Nat) :
    List Action × PRes Unit :=
  match update_map uOk ("0 " ++ toString uid ++ " 1") (uid_map_path pid) with
  | (t1, PRes.exited c) => (t1, PRes.exited c)
  | (t1, PRes.done _) =>
    match update_map gOk ("0 " ++ toString gid ++ " 1") (gid_map_path pid) with
    | (t2, PRes.exited c) => (t1 ++ t2, PRes.exited c)
    | (t2, PRes.done _) => (t1 ++ t2, PRes.done ())

/-- `write_limits()`: mkdir the fixed cgroup directory, write `cpu.max`,
write `memory.max`, append `getpid()` to `cgroup.procs`; each mkdir/open
failure calls `error_exit` with its own message (the `fprintf`s are
unchecked).  Returns 0 on success. -/
def write_limits (env : SysEnv) : List Action × PRes Unit :=
  let t0 := [Action.mkdirDir cgroup_path]
  if ¬ env.mkdirOk then
    (t0 ++ [Action.errExit "Failed to create cgroup directory"], PRes.exited 1)
  else
    let cpuPath := cgroup_path ++ "/cpu.max"
    let t1 := t0 ++ [Action.openFile cpuPath]
    if ¬ env.openCpuOk then
      (t1 ++ [Action.errExit "Failed to open cpu.max file"], PRes.exited 1)
    else
      let t2 := t1 ++ [Action.writeFile cpuPath "10000 100000",
                       Action.closeFile cpuPath]
      let memPath := cgroup_path ++ "/memory.max"
      let t3 := t2 ++ [Action.openFile memPath]
      if ¬ env.openMemOk then
        (t3 ++ [Action.errExit "Failed to open memory.max file"], PRes.exited 1)
      else
        let t4 := t3 ++ [Action.writeFile memPath "67108864",
                         Action.closeFile memPath]
        let procsPath := cgroup_path ++ "/cgroup.procs"
        let t5 := t4 ++ [Action.openFile procsPath]
        if ¬ env.openProcsOk then
          (t5 ++ [Action.errExit "Failed to open cgroup.procs file"],
           PRes.exited 1)
        else
          (t5 ++ [Action.writeFile procsPath (toString env.childPid),
                  Action.closeFile procsPath], PRes.done ())

/-- `child(args)`: close the pipe write end, block reading one byte
(expecting 0 bytes = end of channel), close the read end, then apply
limits, set hostname `"container"`, `chroot("alpine/")`, `chdir("/")`,
mount proc at `/proc`, and `execvp` the requested command — `argv + 2`
verbatim when `argc > 3`, else `{argv[2], NULL}`.  Every failure calls
`error_exit` (exit code 1). -/
def child (env : SysEnv) (argc : Nat) (argv : List String) :
    List Action × ChildOutcome :=
  let t0 := [Action.closePipeWriteChild, Action.pipeRead env.readResult]
  if env.readResult ≠ 0 then
    (t0 ++ [Action.errExit "Failed to read from pipe in child"],
     ChildOutcome.exited 1)
  else
    let t1 := t0 ++ [Action.closePipeReadChild]
    match write_limits env with
    | (tl, PRes.exited c) => (t1 ++ tl, ChildOutcome.exited c)
    | (tl, PRes.done _) =>
      let t2 := t1 ++ tl ++ [Action.setHostname "container" 9]
      if ¬ env.hostnameOk then
        (t2 ++ [Action.errExit "Failed to set hostname"], ChildOutcome.exited 1)
      else
        let t3 := t2 ++ [Action.chrootTo "alpine/"]
        if ¬ env.chrootOk then
          (t3 ++ [Action.errExit "Failed to change root directory"],
           ChildOutcome.exited 1)
        else
          let t4 := t3 ++ [Action.chdirTo "/"]
          if ¬ env.chdirOk then
            (t4 ++ [Action.errExit "Failed to change directory to new root"],
             ChildOutcome.exited 1)
          else
            let t5 := t4 ++ [Action.mountProcFs]
            if ¬ env.mountOk then
              (t5 ++ [Action.errExit "Failed to mount /proc filesystem"],
               ChildOutcome.exited 1)
            else
              let prog := argv.getD 2 ""
              let xargv := if argc > 3 then argv.drop 2 else [prog]
              let t6 := t5 ++ [Action.execvpCall prog xargv]
              if env.execOk then (t6, ChildOutcome.execed prog xargv)
              else (t6 ++ [Action.errExit "execvp failed"],
                    ChildOutcome.exited 1)

/-- Trace of `remove_cgroup_directory()`: tolerates `ENOENT` with a log
line, reports other errors with `perror`; never fatal (the return value is
ignored by `main`). -/
def remove_cgroup_directory (r : RmdirResult) : List Action :=
  match r with
  | RmdirResult.ok => [Action.rmdirCall cgroup_path]
  | RmdirResult.enoent =>
      [Action.rmdirCall cgroup_path,
       Action.logMsg ("Cgroup directory " ++ cgroup_path ++
                      " does not exist.")]
  | RmdirResult.otherErr =>
      [Action.rmdirCall cgroup_path,
       Action.logMsg "Error removing cgroup directory"]

/-- `main(argc, argv)` in the parent: validate arguments, allocate the
child stack, create the synchronization pipe, `clone` the child with the
four namespace flags, write the UID/GID mappings, close the pipe write end,
`waitpid`, remove the cgroup directory, `free` the stack, then return
`WEXITSTATUS(status)` when `WIFEXITED(status)`, else
`error_exit("Child process did not exit normally")`. -/
def mainRun (env : ParentEnv) (argc : Nat) (argv : List String) :
    List Action × MainOutcome :=
  if argc < 2 then
    ([Action.errMsg "Error: No arguments specified.", Action.usageShown],
     MainOutcome.usage)
  else if argv.getD 1 "" ≠ "run" then
    ([Action.errMsg ("Error: Unknown option '" ++ argv.getD 1 "" ++ "'."),
      Action.usageShown], MainOutcome.usage)
  else if argc < 3 then
    ([Action.errMsg "Error: No command specified to execute.",
      Action.usageShown], MainOutcome.usage)
  else
    let t0 := [Action.mallocStack STACK_SIZE]
    if ¬ env.mallocOk then
      (t0 ++ [Action.errExit "Memory allocation failed for stack"],
       MainOutcome.fatal)
    else
      let t1 := t0 ++ [Action.pipeCreate]
      if ¬ env.pipeOk then
        (t1 ++ [Action.errExit "Failed to create pipe"], MainOutcome.fatal)
      else
        match env.clonePid with
        | none =>
          (t1 ++ [Action.cloneCall,
                  Action.errExit "Failed to create child process using clone"],
           MainOutcome.fatal)
        | some pid =>
          let t2 := t1 ++ [Action.cloneCall]
          match write_uid_gid_mappings env.openUidMapOk env.openGidMapOk
              pid env.uid env.gid with
          | (tm, PRes.exited _) => (t2 ++ tm, MainOutcome.fatal)
          | (tm, PRes.done _) =>
            let t3 := t2 ++ tm ++ [Action.closePipeWriteParent,
                                   Action.waitpidCall]
            if ¬ env.waitOk then
              (t3 ++ [Action.errExit "Failed to wait for child process"],
               MainOutcome.fatal)
            else
              let t4 := t3 ++ remove_cgroup_directory env.rmdirResult ++
                        [Action.freeStack]
              if WIFEXITED env.waitStatus then
                (t4, MainOutcome.ret (WEXITSTATUS env.waitStatus))
              else
                (t4 ++ [Action.errExit "Child process did not exit normally"],
                 MainOutcome.fatal)

/-! ### Stage bookkeeping for the child state machine -/

/-- Success of the Resource Limiter stage: all of its mkdir/open calls
succeed. -/
def limitsOk (env : SysEnv) : Bool :=
  env.mkdirOk && env.openCpuOk && env.openMemOk && env.openProcsOk

/-- Success of the gated wait: `read` returned 0 bytes. -/
def stage1Ok (env : SysEnv) : Bool := env.readResult == 0

/-- All setup stages (1–6) of the child succeed. -/
def childSetupOk (env : SysEnv) : Bool :=
  stage1Ok env && limitsOk env && env.hostnameOk && env.chrootOk &&
    env.chdirOk && env.mountOk

/-- Stages 1–7 of the child all succeed (including `execvp`). -/
def childAllOk (env : SysEnv) : Bool := childSetupOk env && env.execOk

/-- Marker: the action belongs to the gated-wait read. -/
def isPipeRead : Action → Bool
  | Action.pipeRead _ => true
  | _ => false

/-- Marker: the action is the cgroup directory creation (start of the
Resource Limiter stage). -/
def isMkdir : Action → Bool
  | Action.mkdirDir _ => true
  | _ => false

/-- Marker: the action is the `sethostname` call. -/
def isSetHostname : Action → Bool
  | Action.setHostname _ _ => true
  | _ => false

/-- Marker: the action is the `chroot` call. -/
def isChroot : Action → Bool
  | Action.chrootTo _ => true
  | _ => false

/-- Marker: the action is the `chdir` call. -/
def isChdir : Action → Bool
  | Action.chdirTo _ => true
  | _ => false

/-- Marker: the action is the proc filesystem mount. -/
def isMount : Action → Bool
  | Action.mountProcFs => true
  | _ => false

/-- Marker: the action is the `execvp` call. -/
def isExec : Action → Bool
  | Action.execvpCall _ _ => true
  | _ => false

/-- The `(path, content)` pairs of all file writes in a trace. -/
def fileWrites (t : List Action) : List (String × String) :=
  t.filterMap fun a =>
    match a with
    | Action.writeFile p c => some (p, c)
    | _ => none

/-! ### Shared helper lemmas -/

theorem write_uid_gid_mappings_ok (pid uid gid : Nat) :
    write_uid_gid_mappings true true pid uid gid =
      ([Action.openFile (uid_map_path pid),
        Action.writeFile (uid_map_path pid) ("0 " ++ toString uid ++ " 1"),
        Action.closeFile (uid_map_path pid),
        Action.openFile (gid_map_path pid),
        Action.writeFile (gid_map_path pid) ("0 " ++ toString gid ++ " 1"),
        Action.closeFile (gid_map_path pid)], PRes.done ()) := rfl

theorem write_limits_ok (env : SysEnv) (h : limitsOk env = true) :
    write_limits env =
      ([Action.mkdirDir cgroup_path,
        Action.openFile (cgroup_path ++ "/cpu.max"),
        Action.writeFile (cgroup_path ++ "/cpu.max") "10000 100000",
        Action.closeFile (cgroup_path ++ "/cpu.max"),
        Action.openFile (cgroup_path ++ "/memory.max"),
        Action.writeFile (cgroup_path ++ "/memory.max") "67108864",
        Action.closeFile (cgroup_path ++ "/memory.max"),
        Action.openFile (cgroup_path ++ "/cgroup.procs"),
        Action.writeFile (cgroup_path ++ "/cgroup.procs")
          (toString env.childPid),
        Action.closeFile (cgroup_path ++ "/cgroup.procs")],
       PRes.done ()) := by
  simp only [limitsOk, Bool.and_eq_true] at h
  obtain ⟨⟨⟨h1, h2⟩, h3⟩, h4⟩ := h
  simp [write_limits, h1, h2, h3, h4]

theorem write_limits_res (env : SysEnv) :
    (write_limits env).2 =
      if limitsOk env then PRes.done () else PRes.exited 1 := by
  unfold write_limits limitsOk
  rcases env.mkdirOk <;> rcases env.openCpuOk <;>
    rcases env.openMemOk <;> rcases env.openProcsOk <;> simp

theorem write_limits_mkdir_mem (env : SysEnv) :
    Action.mkdirDir cgroup_path ∈ (write_limits env).1 := by
  unfold write_limits
  rcases env.mkdirOk <;> rcases env.openCpuOk <;>
    rcases env.openMemOk <;> rcases env.openProcsOk <;> simp

theorem WIFEXITED_mkExitStatus (k : Nat) :
    WIFEXITED (mkExitStatus k) = true := by
  unfold WIFEXITED WTERMSIG mkExitStatus
  simp only [beq_iff_eq]
  omega

theorem WEXITSTATUS_mkExitStatus (k : Nat) (hk : k ≤ 255) :
    WEXITSTATUS (mkExitStatus k) = k := by
  unfold WEXITSTATUS mkExitStatus
  omega

/-- Marker: the action is the parent closing the pipe's write side
(release of the Synchronization Channel). -/
def isClosePW : Action → Bool
  | Action.closePipeWriteParent => true
  | _ => false

/-- Abbreviation: the parent's trace from `malloc` up to and including the
`waitpid` call, on the path where argument validation, allocation, pipe,
clone and both mapping writes succeed. -/
def parentPrefix (uid gid pid : Nat) : List Action :=
  [Action.mallocStack STACK_SIZE, Action.pipeCreate, Action.cloneCall,
   Action.openFile (uid_map_path pid),
   Action.writeFile (uid_map_path pid) ("0 " ++ toString uid ++ " 1"),
   Action.closeFile (uid_map_path pid),
   Action.openFile (gid_map_path pid),
   Action.writeFile (gid_map_path pid) ("0 " ++ toString gid ++ " 1"),
   Action.closeFile (gid_map_path pid),
   Action.closePipeWriteParent, Action.waitpidCall]

theorem renderMapRecord_zero_one (u : Nat) :
    renderMapRecord ⟨0, u, 1⟩ = "0 " ++ toString u ++ " 1" := by
  have h0 : (toString (0 : Nat) : String) = "0" := rfl
  have h1 : (toString (1 : Nat) : String) = "1" := rfl
  unfold renderMapRecord
  apply String.ext
  simp [h0, h1, String.data_append]

theorem fileWrites_append (a b : List Action) :
    fileWrites (a ++ b) = fileWrites a ++ fileWrites b := by
  simp [fileWrites]

theorem fileWrites_remove_cgroup (r : RmdirResult) :
    fileWrites (remove_cgroup_directory r) = [] := by
  rcases r <;> simp [fileWrites, remove_cgroup_directory]

/-- Shape of `main` past a successful mapping commit: the trace is
`parentPrefix` followed by the wait/cleanup tail, and the outcome is
decided by the wait status. -/
theorem mainRun_shape (env : ParentEnv) (argc : Nat) (argv : List String)
    (pid : Nat) (hargc : 3 ≤ argc) (hrun : argv.getD 1 "" = "run")
    (hm : env.mallocOk = true) (hp : env.pipeOk = true)
    (hc : env.clonePid = some pid)
    (hu : env.openUidMapOk = true) (hg : env.openGidMapOk = true) :
    mainRun env argc argv =
      if env.waitOk = false then
        (parentPrefix env.uid env.gid pid ++
           [Action.errExit "Failed to wait for child process"],
         MainOutcome.fatal)
      else if WIFEXITED env.waitStatus then
        (parentPrefix env.uid env.gid pid ++
           remove_cgroup_directory env.rmdirResult ++ [Action.freeStack],
         MainOutcome.ret (WEXITSTATUS env.waitStatus))
      else
        (parentPrefix env.uid env.gid pid ++
           remove_cgroup_directory env.rmdirResult ++
           [Action.freeStack,
            Action.errExit "Child process did not exit normally"],
         MainOutcome.fatal) := by
  have h1 : ¬ argc < 2 := by omega
  have h2 : ¬ argc < 3 := by omega
  have hrun' : argv[1]?.getD "" = "run" := by simpa [List.getD] using hrun
  rcases hw : env.waitOk <;> by_cases hwif : WIFEXITED env.waitStatus <;>
    simp [mainRun, h1, h2, hrun', hm, hp, hc, hu, hg, hw, hwif,
      write_uid_gid_mappings_ok, parentPrefix]

/-- Shape of `main` when a mapping write fails: `error_exit` fires inside
`update_map` and the pipe's write side is never closed. -/
theorem mainRun_map_fail (env : ParentEnv) (argc : Nat) (argv : List String)
    (pid : Nat) (hargc : 3 ≤ argc) (hrun : argv.getD 1 "" = "run")
    (hm : env.mallocOk = true) (hp : env.pipeOk = true)
    (hc : env.clonePid = some pid)
    (hmaps : (env.openUidMapOk && env.openGidMapOk) = false) :
    mainRun env argc argv =
      ([Action.mallocStack STACK_SIZE, Action.pipeCreate, Action.cloneCall] ++
         (write_uid_gid_mappings env.openUidMapOk env.openGidMapOk pid
            env.uid env.gid).1,
       MainOutcome.fatal) := by
  have h1 : ¬ argc < 2 := by omega
  have h2 : ¬ argc < 3 := by omega
  have hrun' : argv[1]?.getD "" = "run" := by simpa [List.getD] using hrun
  rcases hu : env.openUidMapOk <;> rcases hg : env.openGidMapOk
  · simp [mainRun, h1, h2, hrun', hm, hp, hc, hu, hg,
      write_uid_gid_mappings, update_map]
  · simp [mainRun, h1, h2, hrun', hm, hp, hc, hu, hg,
      write_uid_gid_mappings, update_map]
  · simp [mainRun, h1, h2, hrun', hm, hp, hc, hu, hg,
      write_uid_gid_mappings, update_map]
  · simp [hu, hg] at hmaps

theorem write_uid_gid_mappings_no_close (uOk gOk : Bool) (pid uid gid : Nat) :
    (write_uid_gid_mappings uOk gOk pid uid gid).1.any isClosePW = false := by
  rcases uOk <;> rcases gOk <;>
    simp [write_uid_gid_mappings, update_map, isClosePW]

theorem child_read_fail (env : SysEnv) (argc : Nat) (argv : List String)
    (h : env.readResult ≠ 0) :
    child env argc argv =
      ([Action.closePipeWriteChild, Action.pipeRead env.readResult,
        Action.errExit "Failed to read from pipe in child"],
       ChildOutcome.exited 1) := by
  simp [child, h]

theorem child_limits_exit (env : SysEnv) (argc : Nat) (argv : List String)
    (tl : List Action) (c : Nat) (hr : env.readResult = 0)
    (hwl : write_limits env = (tl, PRes.exited c)) :
    child env argc argv =
      ([Action.closePipeWriteChild, Action.pipeRead 0,
        Action.closePipeReadChild] ++ tl, ChildOutcome.exited c) := by
  simp [child, hr, hwl]

theorem write_limits_no_late_markers (env : SysEnv) :
    (write_limits env).1.any isSetHostname = false ∧
    (write_limits env).1.any isChroot = false ∧
    (write_limits env).1.any isChdir = false ∧
    (write_limits env).1.any isMount = false ∧
    (write_limits env).1.any isExec = false := by
  unfold write_limits
  rcases env.mkdirOk <;> rcases env.openCpuOk <;> rcases env.openMemOk <;>
    rcases env.openProcsOk <;>
    simp [isSetHostname, isChroot, isChdir, isMount, isExec]

/-! ### Claim theorems -/

/-- C1: for every valid Launch Request whose launched program terminates
normally with exit code `k` (0–255), the orchestrator (`main`, in the
parent) returns exit code `k` as its own exit status. -/
theorem main_propagates_exit_code (env : ParentEnv) (argc : Nat)
    (argv : List String) (pid k : Nat)
    (hargc : 3 ≤ argc) (hrun : argv.getD 1 "" = "run")
    (hm : env.mallocOk = true) (hp : env.pipeOk = true)
    (hc : env.clonePid = some pid)
    (hu : env.openUidMapOk = true) (hg : env.openGidMapOk = true)
    (hw : env.waitOk = true) (hk : k ≤ 255)
    (hs : env.waitStatus = mkExitStatus k) :
    (mainRun env argc argv).2 = MainOutcome.ret k ∧
      exitStatusOf (mainRun env argc argv).2 = k := by
  have h1 : ¬ argc < 2 := by omega
  have h2 : ¬ argc < 3 := by omega
  have hrun' : argv[1]?.getD "" = "run" := by simpa [List.getD] using hrun
  have hmain : (mainRun env argc argv).2 = MainOutcome.ret k := by
    simp [mainRun, h1, h2, hrun', hm, hp, hc, hu, hg, hw, hs,
      write_uid_gid_mappings_ok, WIFEXITED_mkExitStatus,
      WEXITSTATUS_mkExitStatus k hk]
  refine ⟨hmain, ?_⟩
  rw [hmain]
  simp [exitStatusOf, Nat.mod_eq_of_lt (by omega : k < 256)]

/-- C1 witness: concrete run with a program exiting 7. -/
theorem main_propagates_exit_code_witness :
    (mainRun ⟨1000, 1000, true, true, some 2, true, true, true,
        mkExitStatus 7, RmdirResult.ok⟩ 3 ["ccrun", "run", "sh"]).2 =
      MainOutcome.ret 7 :=
  (main_propagates_exit_code _ 3 ["ccrun", "run", "sh"] 2 7
    (by decide) rfl rfl rfl rfl rfl rfl rfl (by decide) rfl).1

/-- C2: the child entry point performs its stages in exactly the order
gated wait (1), resource limits (2), hostname (3), chroot (4), chdir (5),
proc mount (6), exec (7); each stage is attempted only when every earlier
stage succeeded, any stage failure makes the child exit nonzero (code 1)
with no later stage attempted, and when every stage succeeds the trace is
exactly the ordered stage sequence ending in the exec. -/
theorem child_stage_order (env : SysEnv) (argc : Nat) (argv : List String) :
    (((child env argc argv).1.any isMkdir = true → stage1Ok env = true) ∧
     ((child env argc argv).1.any isSetHostname = true →
        (stage1Ok env && limitsOk env) = true) ∧
     ((child env argc argv).1.any isChroot = true →
        (stage1Ok env && limitsOk env && env.hostnameOk) = true) ∧
     ((child env argc argv).1.any isChdir = true →
        (stage1Ok env && limitsOk env && env.hostnameOk &&
          env.chrootOk) = true) ∧
     ((child env argc argv).1.any isMount = true →
        (stage1Ok env && limitsOk env && env.hostnameOk && env.chrootOk &&
          env.chdirOk) = true) ∧
     ((child env argc argv).1.any isExec = true →
        childSetupOk env = true)) ∧
    (childAllOk env = false →
      (child env argc argv).2 = ChildOutcome.exited 1) ∧
    (childAllOk env = true →
      child env argc argv =
        ([Action.closePipeWriteChild, Action.pipeRead 0,
          Action.closePipeReadChild,
          Action.mkdirDir cgroup_path,
          Action.openFile (cgroup_path ++ "/cpu.max"),
          Action.writeFile (cgroup_path ++ "/cpu.max") "10000 100000",
          Action.closeFile (cgroup_path ++ "/cpu.max"),
          Action.openFile (cgroup_path ++ "/memory.max"),
          Action.writeFile (cgroup_path ++ "/memory.max") "67108864",
          Action.closeFile (cgroup_path ++ "/memory.max"),
          Action.openFile (cgroup_path ++ "/cgroup.procs"),
          Action.writeFile (cgroup_path ++ "/cgroup.procs")
            (toString env.childPid),
          Action.closeFile (cgroup_path ++ "/cgroup.procs"),
          Action.setHostname "container" 9,
          Action.chrootTo "alpine/",
          Action.chdirTo "/",
          Action.mountProcFs,
          Action.execvpCall (argv.getD 2 "")
            (if argc > 3 then argv.drop 2 else [argv.getD 2 ""])],
         ChildOutcome.execed (argv.getD 2 "")
           (if argc > 3 then argv.drop 2 else [argv.getD 2 ""]))) := by
  by_cases hr : env.readResult = 0
  · by_cases hL : limitsOk env = true
    · by_cases h3 : env.hostnameOk = true
      · by_cases h4 : env.chrootOk = true
        · by_cases h5 : env.chdirOk = true
          · by_cases h6 : env.mountOk = true
            · by_cases h7 : env.execOk = true
              · simp [child, hr, write_limits_ok env hL, h3, h4, h5, h6, h7,
                  stage1Ok, hL, childSetupOk, childAllOk,
                  isMkdir, isSetHostname, isChroot, isChdir, isMount, isExec]
              · simp only [Bool.not_eq_true] at h7
                simp [child, hr, write_limits_ok env hL, h3, h4, h5, h6, h7,
                  stage1Ok, hL, childSetupOk, childAllOk,
                  isMkdir, isSetHostname, isChroot, isChdir, isMount, isExec]
            · simp only [Bool.not_eq_true] at h6
              simp [child, hr, write_limits_ok env hL, h3, h4, h5, h6,
                stage1Ok, hL, childSetupOk, childAllOk,
                isMkdir, isSetHostname, isChroot, isChdir, isMount, isExec]
          · simp only [Bool.not_eq_true] at h5
            simp [child, hr, write_limits_ok env hL, h3, h4, h5,
              stage1Ok, hL, childSetupOk, childAllOk,
              isMkdir, isSetHostname, isChroot, isChdir, isMount, isExec]
        · simp only [Bool.not_eq_true] at h4
          simp [child, hr, write_limits_ok env hL, h3, h4,
            stage1Ok, hL, childSetupOk, childAllOk,
            isMkdir, isSetHostname, isChroot, isChdir, isMount, isExec]
      · simp only [Bool.not_eq_true] at h3
        simp [child, hr, write_limits_ok env hL, h3,
          stage1Ok, hL, childSetupOk, childAllOk,
          isMkdir, isSetHostname, isChroot, isChdir, isMount, isExec]
    · simp only [Bool.not_eq_true] at hL
      obtain ⟨m1, m2, m3, m4, m5⟩ := write_limits_no_late_markers env
      have hres := write_limits_res env
      rcases hwl : write_limits env with ⟨tl, r⟩
      rw [hwl] at m1 m2 m3 m4 m5 hres
      simp only [hL, if_neg] at hres
      simp only [Bool.false_eq_true, if_false] at hres
      subst hres
      simp [child, hr, hwl, stage1Ok, hL, childSetupOk, childAllOk,
        List.any_append, m1, m2, m3, m4, m5,
        isMkdir, isSetHostname, isChroot, isChdir, isMount, isExec]
  · rw [child_read_fail env argc argv hr]
    simp [stage1Ok, hr, childSetupOk, childAllOk,
      isMkdir, isSetHostname, isChroot, isChdir, isMount, isExec]

/-- C2 witness: a chroot failure exits 1; a fully successful run execs
`echo hi` after the full ordered stage sequence. -/
theorem child_stage_order_witness :
    (child ⟨0, true, true, true, true, true, false, true, true, true, 1⟩
        3 ["ccrun", "run", "sh"]).2 = ChildOutcome.exited 1 ∧
    (child ⟨0, true, true, true, true, true, true, true, true, true, 1⟩
        4 ["ccrun", "run", "echo", "hi"]).2 =
      ChildOutcome.execed "echo" ["echo", "hi"] := by
  constructor
  · exact (child_stage_order
      ⟨0, true, true, true, true, true, false, true, true, true, 1⟩
      3 ["ccrun", "run", "sh"]).2.1 (by decide)
  · have h := (child_stage_order
      ⟨0, true, true, true, true, true, true, true, true, true, 1⟩
      4 ["ccrun", "run", "echo", "hi"]).2.2 (by decide)
    rw [congrArg Prod.snd h]
    rfl

/-- C3: the Privilege Mapper, run in the parent for the child's process
id, writes exactly two mapping records — `/proc/<pid>/uid_map` and
`/proc/<pid>/gid_map` — each mapping the invoking user's real UID
(resp. GID) as outside-id to inside-id 0 with count 1, and the parent
performs no other file write. -/
theorem mapper_exactly_two_records (env : ParentEnv) (argc : Nat)
    (argv : List String) (pid : Nat)
    (hargc : 3 ≤ argc) (hrun : argv.getD 1 "" = "run")
    (hm : env.mallocOk = true) (hp : env.pipeOk = true)
    (hc : env.clonePid = some pid)
    (hu : env.openUidMapOk = true) (hg : env.openGidMapOk = true) :
    fileWrites (mainRun env argc argv).1 =
      [(uid_map_path pid, renderMapRecord ⟨0, env.uid, 1⟩),
       (gid_map_path pid, renderMapRecord ⟨0, env.gid, 1⟩)] := by
  rw [mainRun_shape env argc argv pid hargc hrun hm hp hc hu hg]
  rcases hw : env.waitOk <;> by_cases hwif : WIFEXITED env.waitStatus <;>
    rcases hrm : env.rmdirResult <;>
    simp [hw, hwif, hrm, remove_cgroup_directory,
      fileWrites, parentPrefix, renderMapRecord_zero_one]

/-- C3 witness: concrete run with uid 1000, gid 1000, child pid 2. -/
theorem mapper_exactly_two_records_witness :
    fileWrites (mainRun ⟨1000, 1000, true, true, some 2, true, true, true,
        mkExitStatus 0, RmdirResult.ok⟩ 3 ["ccrun", "run", "sh"]).1 =
      [(uid_map_path 2, renderMapRecord ⟨0, 1000, 1⟩),
       (gid_map_path 2, renderMapRecord ⟨0, 1000, 1⟩)] :=
  mapper_exactly_two_records _ 3 ["ccrun", "run", "sh"] 2
    (by decide) rfl rfl rfl rfl rfl rfl

/-- C4: the parent closes the Synchronization Channel's write side only
after both mapping writes succeeded — both records occur in the trace
strictly before the close — and if either mapping write fails the close
never happens and the parent reports a fatal error (it exits rather than
hang). -/
theorem channel_released_after_map_commit (env : ParentEnv) (argc : Nat)
    (argv : List String) (pid : Nat)
    (hargc : 3 ≤ argc) (hrun : argv.getD 1 "" = "run")
    (hm : env.mallocOk = true) (hp : env.pipeOk = true)
    (hc : env.clonePid = some pid) :
    ((env.openUidMapOk && env.openGidMapOk) = true →
      (mainRun env argc argv).1.any isClosePW = true ∧
      fileWrites ((mainRun env argc argv).1.takeWhile
          (fun a => !(isClosePW a))) =
        [(uid_map_path pid, renderMapRecord ⟨0, env.uid, 1⟩),
         (gid_map_path pid, renderMapRecord ⟨0, env.gid, 1⟩)]) ∧
    ((env.openUidMapOk && env.openGidMapOk) = false →
      (mainRun env argc argv).1.any isClosePW = false ∧
      (mainRun env argc argv).2 = MainOutcome.fatal) := by
  constructor
  · intro hmaps
    simp only [Bool.and_eq_true] at hmaps
    rw [mainRun_shape env argc argv pid hargc hrun hm hp hc
      hmaps.1 hmaps.2]
    rcases hw : env.waitOk <;> by_cases hwif : WIFEXITED env.waitStatus <;>
      rcases hrm : env.rmdirResult <;>
      simp [hw, hwif, parentPrefix, isClosePW, remove_cgroup_directory,
        fileWrites, renderMapRecord_zero_one]
  · intro hmaps
    rw [mainRun_map_fail env argc argv pid hargc hrun hm hp hc hmaps]
    have hnc := write_uid_gid_mappings_no_close env.openUidMapOk
      env.openGidMapOk pid env.uid env.gid
    simp [List.any_append, hnc, isClosePW]

/-- C4 witness: with both map writes succeeding the channel is released
after the two records; with the UID map write failing it never is and the
parent exits fatally. -/
theorem channel_released_after_map_commit_witness :
    ((mainRun ⟨1000, 1000, true, true, some 2, true, true, true,
        mkExitStatus 0, RmdirResult.ok⟩ 3
        ["ccrun", "run", "sh"]).1.any isClosePW = true) ∧
    ((mainRun ⟨1000, 1000, true, true, some 2, false, true, true,
        mkExitStatus 0, RmdirResult.ok⟩ 3
        ["ccrun", "run", "sh"]).1.any isClosePW = false) := by
  constructor
  · exact ((channel_released_after_map_commit
      ⟨1000, 1000, true, true, some 2, true, true, true,
        mkExitStatus 0, RmdirResult.ok⟩ 3 ["ccrun", "run", "sh"] 2
      (by decide) rfl rfl rfl rfl).1 rfl).1
  · exact ((channel_released_after_map_commit
      ⟨1000, 1000, true, true, some 2, false, true, true,
        mkExitStatus 0, RmdirResult.ok⟩ 3 ["ccrun", "run", "sh"] 2
      (by decide) rfl rfl rfl rfl).2 rfl).1

/-- C5: the Resource Limiter creates the cgroup directory under its fixed
static name, then writes the CPU quota `10000 100000` to `cpu.max`, then
the memory ceiling `67108864` to `memory.max`, then adds the child's own
process id to `cgroup.procs`, in that order; any failure to create the
directory or open a control file is fatal (exit 1) with its own
descriptive error and no further action. -/
theorem limiter_order_and_failfast (env : SysEnv) :
    (limitsOk env = true →
      write_limits env =
        ([Action.mkdirDir cgroup_path,
          Action.openFile (cgroup_path ++ "/cpu.max"),
          Action.writeFile (cgroup_path ++ "/cpu.max") "10000 100000",
          Action.closeFile (cgroup_path ++ "/cpu.max"),
          Action.openFile (cgroup_path ++ "/memory.max"),
          Action.writeFile (cgroup_path ++ "/memory.max") "67108864",
          Action.closeFile (cgroup_path ++ "/memory.max"),
          Action.openFile (cgroup_path ++ "/cgroup.procs"),
          Action.writeFile (cgroup_path ++ "/cgroup.procs")
            (toString env.childPid),
          Action.closeFile (cgroup_path ++ "/cgroup.procs")],
         PRes.done ())) ∧
    (env.mkdirOk = false →
      write_limits env =
        ([Action.mkdirDir cgroup_path,
          Action.errExit "Failed to create cgroup directory"],
         PRes.exited 1)) ∧
    (env.mkdirOk = true → env.openCpuOk = false →
      write_limits env =
        ([Action.mkdirDir cgroup_path,
          Action.openFile (cgroup_path ++ "/cpu.max"),
          Action.errExit "Failed to open cpu.max file"],
         PRes.exited 1)) ∧
    (env.mkdirOk = true → env.openCpuOk = true → env.openMemOk = false →
      write_limits env =
        ([Action.mkdirDir cgroup_path,
          Action.openFile (cgroup_path ++ "/cpu.max"),
          Action.writeFile (cgroup_path ++ "/cpu.max") "10000 100000",
          Action.closeFile (cgroup_path ++ "/cpu.max"),
          Action.openFile (cgroup_path ++ "/memory.max"),
          Action.errExit "Failed to open memory.max file"],
         PRes.exited 1)) ∧
    (env.mkdirOk = true → env.openCpuOk = true → env.openMemOk = true →
      env.openProcsOk = false →
      write_limits env =
        ([Action.mkdirDir cgroup_path,
          Action.openFile (cgroup_path ++ "/cpu.max"),
          Action.writeFile (cgroup_path ++ "/cpu.max") "10000 100000",
          Action.closeFile (cgroup_path ++ "/cpu.max"),
          Action.openFile (cgroup_path ++ "/memory.max"),
          Action.writeFile (cgroup_path ++ "/memory.max") "67108864",
          Action.closeFile (cgroup_path ++ "/memory.max"),
          Action.openFile (cgroup_path ++ "/cgroup.procs"),
          Action.errExit "Failed to open cgroup.procs file"],
         PRes.exited 1)) := by
  refine ⟨write_limits_ok env, ?_, ?_, ?_, ?_⟩
  · intro h1
    simp [write_limits, h1]
  · intro h1 h2
    simp [write_limits, h1, h2]
  · intro h1 h2 h3
    simp [write_limits, h1, h2, h3]
  · intro h1 h2 h3 h4
    simp [write_limits, h1, h2, h3, h4]

/-- C5 witness: a fully successful limiter commits, and a failed mkdir is
immediately fatal. -/
theorem limiter_order_and_failfast_witness :
    (write_limits ⟨0, true, true, true, true, true, true, true, true, true,
        1⟩).2 = PRes.done () ∧
    (write_limits ⟨0, false, true, true, true, true, true, true, true, true,
        1⟩).2 = PRes.exited 1 := by
  constructor
  · have h := (limiter_order_and_failfast
      ⟨0, true, true, true, true, true, true, true, true, true, 1⟩).1
      (by decide)
    rw [congrArg Prod.snd h]
  · have h := (limiter_order_and_failfast
      ⟨0, false, true, true, true, true, true, true, true, true, 1⟩).2.1 rfl
    rw [congrArg Prod.snd h]

/-- C6: for every child that terminates abnormally (wait status whose
signal bits are nonzero), the orchestrator goes down the fatal
launch-failure path — a diagnostic report plus `error_exit` — which is a
distinct outcome from returning any exit code the launched program could
itself produce. -/
theorem abnormal_termination_reported (env : ParentEnv) (argc : Nat)
    (argv : List String) (pid : Nat)
    (hargc : 3 ≤ argc) (hrun : argv.getD 1 "" = "run")
    (hm : env.mallocOk = true) (hp : env.pipeOk = true)
    (hc : env.clonePid = some pid)
    (hu : env.openUidMapOk = true) (hg : env.openGidMapOk = true)
    (hw : env.waitOk = true) (habn : WIFEXITED env.waitStatus = false) :
    (mainRun env argc argv).2 = MainOutcome.fatal ∧
    Action.errExit "Child process did not exit normally" ∈
      (mainRun env argc argv).1 ∧
    (∀ k, MainOutcome.fatal ≠ MainOutcome.ret k) := by
  rw [mainRun_shape env argc argv pid hargc hrun hm hp hc hu hg]
  refine ⟨?_, ?_, ?_⟩
  · simp [hw, habn]
  · simp [hw, habn]
  · intro k h
    exact MainOutcome.noConfusion h

/-- C6 witness: a child killed by SIGKILL (status word 9) is reported as a
fatal launch failure. -/
theorem abnormal_termination_reported_witness :
    (mainRun ⟨1000, 1000, true, true, some 2, true, true, true,
        mkSignalStatus 9, RmdirResult.ok⟩ 3 ["ccrun", "run", "sh"]).2 =
      MainOutcome.fatal :=
  (abnormal_termination_reported _ 3 ["ccrun", "run", "sh"] 2
    (by decide) rfl rfl rfl rfl rfl rfl rfl (by decide)).1

/-- C8: at the exec stage, extra argument tokens beyond the program name
are passed through verbatim and in order as the exec'd program's argv
(whose head is the program name); without extra tokens the argv is just
the program name; and on exec failure the child exits fatally with the
reported error. -/
theorem exec_argv_passthrough (env : SysEnv) (a0 a1 prog : String)
    (rest : List String) (hsetup : childSetupOk env = true) :
    (env.execOk = true → rest ≠ [] →
      (child env (rest.length + 3) (a0 :: a1 :: prog :: rest)).2 =
        ChildOutcome.execed prog (prog :: rest)) ∧
    (env.execOk = true →
      (child env 3 (a0 :: a1 :: [prog])).2 =
        ChildOutcome.execed prog [prog]) ∧
    (env.execOk = false →
      (child env (rest.length + 3) (a0 :: a1 :: prog :: rest)).2 =
        ChildOutcome.exited 1 ∧
      Action.errExit "execvp failed" ∈
        (child env (rest.length + 3) (a0 :: a1 :: prog :: rest)).1) := by
  simp only [childSetupOk, stage1Ok, limitsOk, Bool.and_eq_true,
    beq_iff_eq] at hsetup
  obtain ⟨⟨⟨⟨⟨hr, hL⟩, h3⟩, h4⟩, h5⟩, h6⟩ := hsetup
  have hLok : limitsOk env = true := by
    simp [limitsOk, hL.1, hL.2]
  refine ⟨?_, ?_, ?_⟩
  · intro hex hrest
    have hgt : rest.length + 3 > 3 := by
      cases rest with
      | nil => exact absurd rfl hrest
      | cons a l => simp
    simp [child, hr, write_limits_ok env hLok, h3, h4, h5, h6, hex, hgt,
      List.getD]
  · intro hex
    simp [child, hr, write_limits_ok env hLok, h3, h4, h5, h6, hex,
      List.getD]
  · intro hex
    simp [child, hr, write_limits_ok env hLok, h3, h4, h5, h6, hex,
      List.getD]

/-- C8 witness: `run echo a b` execs `echo` with argv `echo a b`;
`run sh` execs `sh` with argv `sh`; a failing exec exits 1. -/
theorem exec_argv_passthrough_witness :
    (child ⟨0, true, true, true, true, true, true, true, true, true, 1⟩
        5 ["ccrun", "run", "echo", "a", "b"]).2 =
      ChildOutcome.execed "echo" ["echo", "a", "b"] ∧
    (child ⟨0, true, true, true, true, true, true, true, true, true, 1⟩
        3 ["ccrun", "run", "sh"]).2 = ChildOutcome.execed "sh" ["sh"] ∧
    (child ⟨0, true, true, true, true, true, true, true, true, false, 1⟩
        3 ["ccrun", "run", "sh"]).2 = ChildOutcome.exited 1 := by
  refine ⟨?_, ?_, ?_⟩
  · exact (exec_argv_passthrough
      ⟨0, true, true, true, true, true, true, true, true, true, 1⟩
      "ccrun" "run" "echo" ["a", "b"] (by decide)).1 rfl (by decide)
  · exact (exec_argv_passthrough
      ⟨0, true, true, true, true, true, true, true, true, true, 1⟩
      "ccrun" "run" "sh" [] (by decide)).2.1 rfl
  · exact ((exec_argv_passthrough
      ⟨0, true, true, true, true, true, true, true, true, false, 1⟩
      "ccrun" "run" "sh" [] (by decide)).2.2 rfl).1

/-- C7: in the child's gated wait, the blocking read is expected to return
zero bytes; if it returns anything else the child exits fatally (code 1)
at once, and if it returns zero the child proceeds to the next stage (the
Resource Limiter's mkdir is attempted). -/
theorem child_gated_wait (env : SysEnv) (argc : Nat) (argv : List String) :
    (env.readResult ≠ 0 →
      child env argc argv =
        ([Action.closePipeWriteChild, Action.pipeRead env.readResult,
          Action.errExit "Failed to read from pipe in child"],
         ChildOutcome.exited 1)) ∧
    (env.readResult = 0 →
      Action.mkdirDir cgroup_path ∈ (child env argc argv).1) := by
  constructor
  · intro h
    simp [child, h]
  · intro h
    have hm := write_limits_mkdir_mem env
    rcases hwl : write_limits env with ⟨tl, r⟩
    rw [hwl] at hm
    rcases r with _ | c
    · simp only [child, h, hwl]
      rcases h3 : env.hostnameOk <;> rcases h4 : env.chrootOk <;>
        rcases h5 : env.chdirOk <;> rcases h6 : env.mountOk <;>
        rcases h7 : env.execOk <;> simp_all
    · simp [child, h, hwl, hm]

/-- C7 witness: a read returning 1 byte is fatal; a read returning 0
proceeds into the limiter. -/
theorem child_gated_wait_witness :
    (child ⟨1, true, true, true, true, true, true, true, true, true, 1⟩
        3 ["ccrun", "run", "sh"]).2 = ChildOutcome.exited 1 ∧
    Action.mkdirDir cgroup_path ∈
      (child ⟨0, true, true, true, true, true, true, true, true, true, 1⟩
        3 ["ccrun", "run", "sh"]).1 := by
  constructor
  · rw [(child_gated_wait
      ⟨1, true, true, true, true, true, true, true, true, true, 1⟩
      3 ["ccrun", "run", "sh"]).1 (by decide)]
  · exact (child_gated_wait
      ⟨0, true, true, true, true, true, true, true, true, true, 1⟩
      3 ["ccrun", "run", "sh"]).2 rfl

/-- C9 counterexample: the stack release is not last.  In a concrete run
whose child is killed by a signal, `free(stack)` appears in the trace but
the abnormal-termination report (`error_exit`) comes after it, so the last
action is not the stack release — the wait status is inspected and
propagated only after the free. -/
theorem stack_free_not_last_counterexample :
    Action.freeStack ∈
      (mainRun ⟨1000, 1000, true, true, some 2, true, true, true, 9,
          RmdirResult.ok⟩ 3 ["ccrun", "run", "sh"]).1 ∧
    (mainRun ⟨1000, 1000, true, true, some 2, true, true, true, 9,
        RmdirResult.ok⟩ 3 ["ccrun", "run", "sh"]).1.getLast? =
      some (Action.errExit "Child process did not exit normally") ∧
    (mainRun ⟨1000, 1000, true, true, some 2, true, true, true, 9,
        RmdirResult.ok⟩ 3 ["ccrun", "run", "sh"]).1.getLast? ≠
      some Action.freeStack := by
  refine ⟨?_, ?_, ?_⟩ <;> decide

/-- C9 amended: the orchestrator frees the stack after reaping the child
and removing the cgroup directory, but before the wait status is inspected
and propagated: on normal exit the free is the final action, while on
abnormal termination the fatal report is emitted after the free. -/
theorem stack_freed_after_cleanup (env : ParentEnv) (argc : Nat)
    (argv : List String) (pid : Nat)
    (hargc : 3 ≤ argc) (hrun : argv.getD 1 "" = "run")
    (hm : env.mallocOk = true) (hp : env.pipeOk = true)
    (hc : env.clonePid = some pid)
    (hu : env.openUidMapOk = true) (hg : env.openGidMapOk = true)
    (hw : env.waitOk = true) :
    (mainRun env argc argv).1 =
      parentPrefix env.uid env.gid pid ++
        remove_cgroup_directory env.rmdirResult ++ [Action.freeStack] ++
        (if WIFEXITED env.waitStatus then []
         else [Action.errExit "Child process did not exit normally"]) := by
  rw [mainRun_shape env argc argv pid hargc hrun hm hp hc hu hg]
  by_cases hwif : WIFEXITED env.waitStatus <;> simp [hw, hwif]

/-- C9 witness: on a normal exit, the free is the last action of a
concrete run. -/
theorem stack_freed_after_cleanup_witness :
    (mainRun ⟨1000, 1000, true, true, some 2, true, true, true,
        mkExitStatus 0, RmdirResult.ok⟩ 3
        ["ccrun", "run", "sh"]).1.getLast? = some Action.freeStack := by
  rw [stack_freed_after_cleanup
    ⟨1000, 1000, true, true, some 2, true, true, true,
      mkExitStatus 0, RmdirResult.ok⟩ 3 ["ccrun", "run", "sh"] 2
    (by decide) rfl rfl rfl rfl rfl rfl rfl]
  decide

/-- C10: every fatal failure path terminates with exit status exactly 1 —
the child's `error_exit` sites all exit 1, the parent's `error_exit` and
`usage` outcomes both map to status 1 — so the fixed failure code is the
single value 1, identical to the pass-through status of a program that
itself exits with code 1. -/
theorem all_fatal_paths_exit_one :
    (∀ (env : SysEnv) (argc : Nat) (argv : List String) (c : Nat),
      (child env argc argv).2 = ChildOutcome.exited c → c = 1) ∧
    (∀ (env : ParentEnv) (argc : Nat) (argv : List String),
      (mainRun env argc argv).2 = MainOutcome.fatal ∨
        (mainRun env argc argv).2 = MainOutcome.usage →
      exitStatusOf (mainRun env argc argv).2 = 1) ∧
    exitStatusOf MainOutcome.fatal = exitStatusOf (MainOutcome.ret 1) ∧
    exitStatusOf MainOutcome.usage = exitStatusOf (MainOutcome.ret 1) := by
  refine ⟨?_, ?_, rfl, rfl⟩
  · intro env argc argv c h
    by_cases hr : env.readResult = 0
    · have hres := write_limits_res env
      rcases hwl : write_limits env with ⟨tl, r⟩
      rw [hwl] at hres
      by_cases hL : limitsOk env = true
      · rw [if_pos hL] at hres
        subst hres
        simp only [child, hr] at h
        rw [hwl] at h
        rcases h3 : env.hostnameOk <;> rcases h4 : env.chrootOk <;>
          rcases h5 : env.chdirOk <;> rcases h6 : env.mountOk <;>
          rcases h7 : env.execOk <;> simp_all
      · simp only [Bool.not_eq_true] at hL
        rw [hL] at hres
        simp only [Bool.false_eq_true, if_false] at hres
        subst hres
        rw [child_limits_exit env argc argv tl 1 hr hwl] at h
        simpa using h.symm
    · rw [child_read_fail env argc argv hr] at h
      simpa using h.symm
  · intro env argc argv h
    rcases h with h | h <;> rw [h] <;> rfl

/-- C10 witness: a parent whose stack allocation fails exits with status
1, the same status as a run whose program exits with code 1. -/
theorem all_fatal_paths_exit_one_witness :
    exitStatusOf (mainRun ⟨1000, 1000, false, true, some 2, true, true,
        true, 0, RmdirResult.ok⟩ 3 ["ccrun", "run", "sh"]).2 = 1 :=
  all_fatal_paths_exit_one.2.1
    ⟨1000, 1000, false, true, some 2, true, true, true, 0, RmdirResult.ok⟩
    3 ["ccrun", "run", "sh"] (Or.inl (by decide))

end CCRun
